import Mathlib

/-!
Verification development for the multi-audio track importer
(src/multi_audio_importer.py).  The Python source is shallowly embedded:
pure computations become Lean functions, the external process invocations
(ffprobe / ffmpeg) become explicit outcome parameters, and the sequencer
timeline becomes an explicit list of strips with integer placement fields.
-/

namespace MultiAudio

/-- One audio stream discovered by the probe (fields used by the code:
`index` and the title tag, which defaults to a synthesized name). -/
structure StreamInfo where
  index : Nat
  title : String
deriving Repr, DecidableEq

/-- Result of the stream scan: either the ordered stream list taken from the
parsed probe output, or a typed failure dictionary (kind, detail), exactly
as `get_audio_tracks` returns in the source. -/
inductive ScanResult where
  | streams (xs : List StreamInfo)
  | failure (kind : String) (detail : String)
deriving Repr, DecidableEq

/-- Behaviour of the external probe process (subprocess.run in the source):
it completes with an exit code and captured stdout/stderr, exceeds the
30-second bound, or raises some other exception. -/
inductive ProbeOutcome where
  | completed (returncode : Int) (stdout : String) (stderr : String)
  | timedOut
  | raised (msg : String)
deriving Repr, DecidableEq

/-- Embedding of `get_audio_tracks` (source lines 26-60).  `parseStreams`
stands for `json.loads(...)` followed by `data.get("streams", [])`: it
either yields the stream list or the decode-error message. -/
def get_audio_tracks (parseStreams : String → Except String (List StreamInfo)) :
    ProbeOutcome → ScanResult
  | .completed rc out err =>
    if rc ≠ 0 then
      .failure "ffprobe_failed"
        ("ffprobe failed (code " ++ toString rc ++ "): " ++ err.trim)
    else if out.trim = "" then
      .failure "ffprobe_empty_output"
        "ffprobe returned no output. File may not contain audio tracks."
    else
      match parseStreams out with
      | .error e => .failure "json_decode_error" ("Error parsing ffprobe output: " ++ e)
      | .ok xs => .streams xs
  | .timedOut => .failure "ffprobe_timeout" "ffprobe timed out after 30 seconds"
  | .raised msg =>
    .failure "ffprobe_unexpected_error" ("Unexpected error running ffprobe: " ++ msg)

/-- Behaviour of the external transcode process monitored by
`run_ffmpeg_with_progress`: it exits within the timeout with a code and
captured stdout/stderr, overruns the timeout, or raises an exception. -/
inductive ProcBehavior where
  | timesOut
  | exits (returncode : Int) (stdout : String) (stderr : String)
  | raised (msg : String)
deriving Repr, DecidableEq

/-- Embedding of `run_ffmpeg_with_progress` (source lines 62-123): on
timeout returns (None, "Process timed out"); on exit code 0 returns
(stdout, None); on nonzero exit returns (None, stderr); on any exception
returns (None, str(e)).  Progress-bar updates are host-side effects with
no bearing on the returned pair. -/
def run_ffmpeg_with_progress (b : ProcBehavior) : Option String × Option String :=
  match b with
  | .timesOut => (none, some "Process timed out")
  | .exits rc out err => if rc = 0 then (some out, none) else (none, some err)
  | .raised msg => (none, some msg)

/-- Python `int()` applied to a rational value: truncation toward zero. -/
def pyInt (q : ℚ) : Int :=
  if q < 0 then -(Int.floor (-q)) else Int.floor q

/-- Embedding of line 347 of the source:
`audio_timeout = max(60, min(600, int(file_size_mb * 2)))`. -/
def audio_timeout (fileSizeMb : ℚ) : Int :=
  max 60 (min 600 (pyInt (fileSizeMb * 2)))

/-- Embedding of source lines 356-363: the first channel used for newly
extracted audio strips is one past the maximum occupied channel, or 1 when
no strip occupies the timeline. -/
def extraction_start_channel (occupiedChannels : List Int) : Int :=
  match occupiedChannels with
  | [] => 1
  | c :: cs => cs.foldl max c + 1

/-- A sequencer strip, reduced to the placement fields the algorithm reads
and writes.  `contentDuration` is the length in frames of the underlying
media content; Blender derives the final bounds from it and the two trim
offsets. -/
structure Strip where
  name : String
  channel : Int
  frameStart : Int
  contentDuration : Int
  frameOffsetStart : Int
  frameOffsetEnd : Int
deriving Repr, DecidableEq

/-- Blender derived field: frame_final_start = frame_start + frame_offset_start. -/
def Strip.frameFinalStart (s : Strip) : Int :=
  s.frameStart + s.frameOffsetStart

/-- Blender derived field: frame_final_duration = content length minus the
two trim offsets. -/
def Strip.frameFinalDuration (s : Strip) : Int :=
  s.contentDuration - s.frameOffsetStart - s.frameOffsetEnd

/-- Blender derived field: frame_final_end = frame_final_start + frame_final_duration. -/
def Strip.frameFinalEnd (s : Strip) : Int :=
  s.frameFinalStart + s.frameFinalDuration

/-- Two strips overlap when they sit on the same channel and their final
frame ranges intersect. -/
def Strip.overlaps (s t : Strip) : Prop :=
  s.channel = t.channel ∧ s.frameFinalStart < t.frameFinalEnd ∧
    t.frameFinalStart < s.frameFinalEnd

instance (s t : Strip) : Decidable (s.overlaps t) := by
  unfold Strip.overlaps; infer_instance

/-- The immutable snapshot of the selected strip's placement taken at
source lines 330-337, before any mutation. -/
structure Snapshot where
  name : String
  channel : Int
  frameStart : Int
  frameFinalStart : Int
  frameFinalEnd : Int
  frameFinalDuration : Int
  frameOffsetStart : Int
  frameOffsetEnd : Int
deriving Repr, DecidableEq

/-- Capture the snapshot from the live strip (source lines 330-337). -/
def mkSnapshot (s : Strip) : Snapshot :=
  { name := s.name
    channel := s.channel
    frameStart := s.frameStart
    frameFinalStart := s.frameFinalStart
    frameFinalEnd := s.frameFinalEnd
    frameFinalDuration := s.frameFinalDuration
    frameOffsetStart := s.frameOffsetStart
    frameOffsetEnd := s.frameOffsetEnd }

/-- One extraction job's timing window. -/
structure ExtractionJob where
  streamIndex : Nat
  startSeconds : ℚ
  durationSeconds : ℚ
deriving Repr, DecidableEq

/-- Embedding of source lines 390-399: the extraction window of one
additional stream.  `videoDurationSeconds` is the container's declared
duration (probed at lines 280-294); it is in scope in the source but the
window is computed only from the snapshot's frame counts and the true
source rate. -/
def mkExtractionJob (snap : Snapshot) (actualVideoFps : ℚ)
    (videoDurationSeconds : ℚ) (stream : StreamInfo) : ExtractionJob :=
  { streamIndex := stream.index
    startSeconds := (snap.frameOffsetStart : ℚ) / actualVideoFps
    durationSeconds := (snap.frameFinalDuration : ℚ) / actualVideoFps }

/-- Outcome of one extraction job's external run and import, as the loop at
source lines 371-481 observes it: the transcode reported an error on
stderr (line 424), the output file was missing (line 454), the host failed
to create the sound strip (line 476), or the strip was created and Blender
gave it the extracted sound's natural length in frames. -/
inductive JobOutcome where
  | toolError (stderr : String)
  | outputMissing
  | createFailed
  | ok (soundFrames : Int)
deriving Repr, DecidableEq

/-- Whether a job outcome produced a strip. -/
def JobOutcome.isOk : JobOutcome → Bool
  | .ok _ => true
  | _ => false

/-- The fixed temporary extraction frame, source line 351. -/
def temp_extraction_start : Int := 1000

/-- The sound strip created for one verified job (source lines 459-467):
placed at the temporary frame on the given channel, untrimmed, with the
extracted file's natural content length. -/
def mkAudioStrip (stream : StreamInfo) (ch : Int) (soundFrames : Int) : Strip :=
  { name := "Audio_" ++ stream.title
    channel := ch
    frameStart := temp_extraction_start
    contentDuration := soundFrames
    frameOffsetStart := 0
    frameOffsetEnd := 0 }

/-- The extraction loop's effect on the timeline (source lines 371-481):
each stream is tried in order against its job outcome; a failed job is
skipped (`continue`) and the channel counter does not advance; a verified
job creates a strip on the next channel. -/
def buildCreated : List StreamInfo → List JobOutcome → Int → List Strip
  | [], _, _ => []
  | _ :: _, [], _ => []
  | s :: ss, o :: os, ch =>
    match o with
    | .ok d => mkAudioStrip s ch d :: buildCreated ss os (ch + 1)
    | _ => buildCreated ss os ch

/-- Count of verified jobs among the streams actually attempted. -/
def okCount : List StreamInfo → List JobOutcome → Nat
  | [], _ => 0
  | _ :: _, [] => 0
  | _ :: ss, o :: os => (if o.isOk then 1 else 0) + okCount ss os

/-- The restoration step applied to the freshly made metastrip (source
lines 505-534): move it back to the snapshot position and channel, restore
both trim offsets from the snapshot, then, when the resulting final
duration differs from the snapshot's by more than one frame, add the
signed difference to frame_offset_end.  `metaFrames` is the content length
the host gave the metastrip when grouping. -/
def restoreMeta (snap : Snapshot) (metaFrames : Int) : Strip :=
  let m : Strip :=
    { name := "MultiAudio_" ++ snap.name
      channel := snap.channel
      frameStart := snap.frameStart
      contentDuration := metaFrames
      frameOffsetStart := snap.frameOffsetStart
      frameOffsetEnd := snap.frameOffsetEnd }
  let currentDuration := m.frameFinalDuration
  let targetDuration := snap.frameFinalDuration
  if 1 < (currentDuration - targetDuration).natAbs then
    { m with frameOffsetEnd := snap.frameOffsetEnd + (currentDuration - targetDuration) }
  else
    m

/-- The host-dependent inputs of one run of the operator: the scan result,
whether the container-duration probe at lines 280-293 succeeded, the
per-additional-stream job outcomes, and the content length of the
metastrip when `meta_make` yields one (none when it fails, line 543). -/
structure ExecInputs where
  scan : ScanResult
  durationProbeOk : Bool
  jobOutcomes : List JobOutcome
  metaMake : Option Int
deriving Repr, DecidableEq

/-- The operator's Blender return status. -/
inductive OpStatus where
  | finished
  | cancelled
deriving Repr, DecidableEq

/-- Observable outcome of one run: the return status, the final state of
the originally selected strip, the strips created during extraction, the
strips selected for grouping, and the restored metastrip when one was
made. -/
structure ExecResult where
  status : OpStatus
  selected : Strip
  created : List Strip
  grouped : List Strip
  meta : Option Strip
deriving Repr, DecidableEq

/-- A run that touched nothing on the timeline. -/
def noMutation (status : OpStatus) (sel : Strip) : ExecResult :=
  { status := status, selected := sel, created := [], grouped := [], meta := none }

/-- The first workspace channel for new audio strips, computed from every
strip on the timeline (source lines 356-363): the selected strip and all
others. -/
def workspaceChannel (sel : Strip) (others : List Strip) : Int :=
  extraction_start_channel ((sel :: others).map Strip.channel)

/-- The original strip after being moved into the temporary area for
grouping (source lines 489-492): frame 1000, one channel below the new
audio strips. -/
def movedOriginal (sel : Strip) (others : List Strip) : Strip :=
  { sel with
    frameStart := temp_extraction_start
    channel := workspaceChannel sel others - 1 }

/-- The audio strips created by the extraction loop for the additional
streams (all streams but the first, source line 345), starting at the
workspace channel. -/
def createdStrips (sel : Strip) (others : List Strip) (streams : List StreamInfo)
    (os : List JobOutcome) : List Strip :=
  buildCreated (streams.drop 1) os (workspaceChannel sel others)

/-- Embedding of `AUDIO_OT_ExtractAdditionalTracks.execute` from the scan
onward (source lines 232-553), for a run with a single selected strip
`sel` and the other strips `others` already on the timeline.  A scan
failure cancels before any mutation (lines 238-240); zero or one stream
finishes before any mutation (lines 244-249); a failed duration probe
cancels (lines 289-291); otherwise the placement snapshot is taken, jobs
run, and when at least one strip was created the original strip is moved
into the temporary area (lines 489-492), everything is grouped (lines
496-503) and the metastrip is restored (lines 505-534); when no strip was
created the run warns and still finishes (lines 545-546, 552-553). -/
def execute (sel : Strip) (others : List Strip) (inp : ExecInputs) : ExecResult :=
  match inp.scan with
  | .failure _ _ => noMutation .cancelled sel
  | .streams streams =>
    if streams.length ≤ 1 then
      noMutation .finished sel
    else if !inp.durationProbeOk then
      noMutation .cancelled sel
    else if createdStrips sel others streams inp.jobOutcomes = [] then
      noMutation .finished sel
    else
      match inp.metaMake with
      | none =>
        { status := .finished
          selected := movedOriginal sel others
          created := createdStrips sel others streams inp.jobOutcomes
          grouped := movedOriginal sel others :: createdStrips sel others streams inp.jobOutcomes
          meta := none }
      | some metaFrames =>
        { status := .finished
          selected := movedOriginal sel others
          created := createdStrips sel others streams inp.jobOutcomes
          grouped := movedOriginal sel others :: createdStrips sel others streams inp.jobOutcomes
          meta := some (restoreMeta (mkSnapshot sel) metaFrames) }

/-! Concrete instances used to exercise the definitions. -/

/-- First audio stream of the examples. -/
def streamA : StreamInfo := { index := 0, title := "A" }

/-- Second audio stream of the examples. -/
def streamB : StreamInfo := { index := 1, title := "Comm" }

/-- Third audio stream of the examples. -/
def streamC : StreamInfo := { index := 2, title := "Music" }

/-- The spec's example trim window: offsets 48 and 0, final duration 960
frames, over a 1000-frame source placed at frame 100 on channel 1. -/
def snapEx : Snapshot :=
  { name := "Clip"
    channel := 1
    frameStart := 100
    frameFinalStart := 148
    frameFinalEnd := 1108
    frameFinalDuration := 960
    frameOffsetStart := 48
    frameOffsetEnd := 0 }

/-- A trimmed selected strip: 100 content frames, trimmed by 5 and 7. -/
def selW : Strip :=
  { name := "V", channel := 3, frameStart := 10, contentDuration := 100,
    frameOffsetStart := 5, frameOffsetEnd := 7 }

/-- A fully successful run over two streams: one verified job, grouping
yields a 130-frame metastrip. -/
def inpW : ExecInputs :=
  { scan := .streams [streamA, streamB], durationProbeOk := true,
    jobOutcomes := [JobOutcome.ok 120], metaMake := some 130 }

/-- The metastrip `execute selW [] inpW` produces after restoration. -/
def metaW : Strip :=
  { name := "MultiAudio_V", channel := 3, frameStart := 10, contentDuration := 130,
    frameOffsetStart := 5, frameOffsetEnd := 37 }

/-- An untrimmed selected strip at the timeline origin. -/
def selF : Strip :=
  { name := "V4", channel := 1, frameStart := 0, contentDuration := 50,
    frameOffsetStart := 0, frameOffsetEnd := 0 }

/-- A run whose single additional extraction job fails with a tool error. -/
def inpAllFail : ExecInputs :=
  { scan := .streams [streamA, streamB], durationProbeOk := true,
    jobOutcomes := [JobOutcome.toolError "boom"], metaMake := none }

/-- A run whose scan found a single audio stream. -/
def inpOneStream : ExecInputs :=
  { scan := .streams [streamA], durationProbeOk := false,
    jobOutcomes := [], metaMake := none }

/-- The spec's partial-success scenario: streams idx0/idx1/idx2, the idx1
job verified, the idx2 job failing with a tool error. -/
def inpPartial : ExecInputs :=
  { scan := .streams [streamA, streamB, streamC], durationProbeOk := true,
    jobOutcomes := [JobOutcome.ok 100, JobOutcome.toolError "x"], metaMake := some 95 }

/-- A selected strip on channel 1 covering frames 0-100. -/
def selOv : Strip :=
  { name := "V3", channel := 1, frameStart := 0, contentDuration := 100,
    frameOffsetStart := 0, frameOffsetEnd := 0 }

/-- A pre-existing strip on channel 2 covering frames 900-1200, across the
fixed temporary extraction frame 1000. -/
def otherOv : Strip :=
  { name := "B3", channel := 2, frameStart := 900, contentDuration := 300,
    frameOffsetStart := 0, frameOffsetEnd := 0 }

/-- A run with one verified additional job over the two-strip timeline. -/
def inpOv : ExecInputs :=
  { scan := .streams [streamA, streamB], durationProbeOk := true,
    jobOutcomes := [JobOutcome.ok 150], metaMake := none }

/-- A stream parser that always reports a decode error. -/
def parseFail : String → Except String (List StreamInfo) := fun _ => .error "bad"

/-! Helper lemmas. -/

/-- Folding `max` over a list bounds the seed and every element. -/
lemma foldl_max_bounds (l : List Int) :
    ∀ a : Int, a ≤ l.foldl max a ∧ ∀ x ∈ l, x ≤ l.foldl max a := by
  induction l with
  | nil =>
    intro a
    exact ⟨le_refl a, by simp⟩
  | cons b t ih =>
    intro a
    simp only [List.foldl_cons]
    refine ⟨le_trans (le_max_left a b) (ih (max a b)).1, ?_⟩
    intro x hx
    rcases List.mem_cons.mp hx with h | h
    · subst h
      exact le_trans (le_max_right a x) (ih (max a x)).1
    · exact (ih (max a b)).2 x h

/-- The fold of `max` over a list is the seed or one of the elements. -/
lemma foldl_max_mem (l : List Int) : ∀ a : Int, l.foldl max a ∈ a :: l := by
  induction l with
  | nil =>
    intro a
    simp
  | cons b t ih =>
    intro a
    simp only [List.foldl_cons]
    rcases List.mem_cons.mp (ih (max a b)) with h1 | h1
    · rw [h1]
      rcases le_total a b with hab | hab
      · rw [max_eq_right hab]
        exact List.mem_cons_of_mem a (List.mem_cons_self b t)
      · rw [max_eq_left hab]
        exact List.mem_cons_self a (b :: t)
    · exact List.mem_cons_of_mem a (List.mem_cons_of_mem b h1)

/-- The extraction loop creates exactly one strip per verified job among
the attempted streams, regardless of the starting channel. -/
lemma buildCreated_length (ss : List StreamInfo) :
    ∀ (os : List JobOutcome) (ch : Int),
      (buildCreated ss os ch).length = okCount ss os := by
  induction ss with
  | nil =>
    intro os ch
    cases os <;> simp [buildCreated, okCount]
  | cons s ss ih =>
    intro os ch
    cases os with
    | nil => simp [buildCreated, okCount]
    | cons o os =>
      cases o <;> simp [buildCreated, okCount, JobOutcome.isOk, ih] <;> omega

/-- Every strip the extraction loop creates sits on a channel at or above
the loop's starting channel. -/
lemma buildCreated_channel_le (ss : List StreamInfo) :
    ∀ (os : List JobOutcome) (ch : Int) (c : Strip),
      c ∈ buildCreated ss os ch → ch ≤ c.channel := by
  induction ss with
  | nil =>
    intro os ch c h
    simp [buildCreated] at h
  | cons s ss ih =>
    intro os ch c h
    cases os with
    | nil => simp [buildCreated] at h
    | cons o os =>
      cases o with
      | ok d =>
        simp only [buildCreated] at h
        rcases List.mem_cons.mp h with h1 | h1
        · subst h1
          simp [mkAudioStrip]
        · have := ih os (ch + 1) c h1
          omega
      | toolError e =>
        exact ih os ch c h
      | outputMissing =>
        exact ih os ch c h
      | createFailed =>
        exact ih os ch c h

/-- When every job outcome fails, the extraction loop creates nothing. -/
lemma buildCreated_all_fail (ss : List StreamInfo) :
    ∀ (os : List JobOutcome) (ch : Int),
      (∀ o ∈ os, o.isOk = false) → buildCreated ss os ch = [] := by
  induction ss with
  | nil =>
    intro os ch _
    cases os <;> simp [buildCreated]
  | cons s ss ih =>
    intro os ch hall
    cases os with
    | nil => simp [buildCreated]
    | cons o os =>
      cases o with
      | ok d =>
        have := hall (.ok d) (List.mem_cons_self _ _)
        simp [JobOutcome.isOk] at this
      | toolError e =>
        exact ih os ch fun o ho => hall o (List.mem_cons_of_mem _ ho)
      | outputMissing =>
        exact ih os ch fun o ho => hall o (List.mem_cons_of_mem _ ho)
      | createFailed =>
        exact ih os ch fun o ho => hall o (List.mem_cons_of_mem _ ho)

/-- Field-level description of the restored metastrip: position, channel
and start offset come back from the snapshot, the resulting final duration
is within one frame of the snapshot's, and the end offset is either the
snapshot's (when the grouped duration was already within one frame) or the
snapshot's plus the signed duration difference. -/
lemma restoreMeta_spec (snap : Snapshot) (metaFrames : Int) :
    (restoreMeta snap metaFrames).channel = snap.channel ∧
    (restoreMeta snap metaFrames).frameStart = snap.frameStart ∧
    (restoreMeta snap metaFrames).frameOffsetStart = snap.frameOffsetStart ∧
    ((restoreMeta snap metaFrames).frameFinalDuration - snap.frameFinalDuration).natAbs ≤ 1 ∧
    (((metaFrames - snap.frameOffsetStart - snap.frameOffsetEnd - snap.frameFinalDuration).natAbs ≤ 1 ∧
        (restoreMeta snap metaFrames).frameOffsetEnd = snap.frameOffsetEnd) ∨
      (1 < (metaFrames - snap.frameOffsetStart - snap.frameOffsetEnd - snap.frameFinalDuration).natAbs ∧
        (restoreMeta snap metaFrames).frameOffsetEnd =
          snap.frameOffsetEnd +
            (metaFrames - snap.frameOffsetStart - snap.frameOffsetEnd - snap.frameFinalDuration))) := by
  unfold restoreMeta
  simp only [Strip.frameFinalDuration]
  split
  · rename_i hgt
    refine ⟨rfl, rfl, rfl, ?_, Or.inr ⟨by omega, by ring_nf⟩⟩
    simp only
    omega
  · rename_i hle
    refine ⟨rfl, rfl, rfl, ?_, Or.inl ⟨by omega, rfl⟩⟩
    simp only
    omega

/-- Every strip on the timeline sits strictly below the computed
extraction start channel. -/
lemma channel_lt_extraction_start (strips : List Strip) (s : Strip) (hs : s ∈ strips) :
    s.channel < extraction_start_channel (strips.map Strip.channel) := by
  cases strips with
  | nil => simp at hs
  | cons a t =>
    have hmap : (a :: t).map Strip.channel = a.channel :: t.map Strip.channel := rfl
    have hext : extraction_start_channel ((a :: t).map Strip.channel) =
        (t.map Strip.channel).foldl max a.channel + 1 := rfl
    rw [hext]
    have hch : s.channel ≤ (t.map Strip.channel).foldl max a.channel := by
      have hmem := List.mem_map_of_mem Strip.channel hs
      rw [hmap] at hmem
      rcases List.mem_cons.mp hmem with h1 | h1
      · rw [h1]
        exact (foldl_max_bounds _ _).1
      · exact (foldl_max_bounds _ _).2 _ h1
    omega

/-- The full result record of a run that scans at least two streams,
resolves the container duration, creates at least one strip, and groups
successfully. -/
lemma execute_success_record (sel : Strip) (others : List Strip) (inp : ExecInputs)
    (xs : List StreamInfo) (L : Int)
    (hscan : inp.scan = .streams xs) (hlen : ¬ xs.length ≤ 1)
    (hprobe : inp.durationProbeOk = true)
    (hne : createdStrips sel others xs inp.jobOutcomes ≠ [])
    (hmeta : inp.metaMake = some L) :
    execute sel others inp =
      { status := .finished
        selected := movedOriginal sel others
        created := createdStrips sel others xs inp.jobOutcomes
        grouped := movedOriginal sel others :: createdStrips sel others xs inp.jobOutcomes
        meta := some (restoreMeta (mkSnapshot sel) L) } := by
  unfold execute
  rw [hscan, hmeta]
  simp [hlen, hprobe, hne]

/-- Every strip created by a run sits at or above the workspace starting
channel. -/
lemma execute_created_channel (sel : Strip) (others : List Strip) (inp : ExecInputs)
    (c : Strip) (hc : c ∈ (execute sel others inp).created) :
    workspaceChannel sel others ≤ c.channel := by
  unfold execute at hc
  split at hc
  · simp [noMutation] at hc
  · split at hc
    · simp [noMutation] at hc
    · split at hc
      · simp [noMutation] at hc
      · split at hc
        · simp [noMutation] at hc
        · split at hc
          · simp only [] at hc
            unfold createdStrips at hc
            exact buildCreated_channel_le _ _ _ _ hc
          · simp only [] at hc
            unfold createdStrips at hc
            exact buildCreated_channel_le _ _ _ _ hc

/-- Any metastrip produced by a run is the restoration of the pre-run
snapshot against the host-reported grouped length. -/
lemma execute_meta_eq (sel : Strip) (others : List Strip) (inp : ExecInputs) (m : Strip)
    (hm : (execute sel others inp).meta = some m) :
    ∃ metaFrames, inp.metaMake = some metaFrames ∧
      m = restoreMeta (mkSnapshot sel) metaFrames := by
  unfold execute at hm
  split at hm
  · simp [noMutation] at hm
  · split at hm
    · simp [noMutation] at hm
    · split at hm
      · simp [noMutation] at hm
      · split at hm
        · simp [noMutation] at hm
        · split at hm
          · simp at hm
          · rename_i metaFrames heq
            simp at hm
            exact ⟨metaFrames, heq, hm.symm⟩

/-! Claim theorems. -/

/-- C1: every extraction job's window is computed from the trim-window
snapshot and the true source rate alone: startSeconds is
frameOffsetStart / R and durationSeconds is finalDurationFrames / R
(equivalently, multiplying back by R returns the frame counts), the window
is identical for all additional streams, and it does not depend on the
container's declared duration. -/
theorem extraction_window_from_snapshot (snap : Snapshot) (fps : ℚ) (h : 0 < fps)
    (videoDur videoDur' : ℚ) (s t : StreamInfo) :
    (mkExtractionJob snap fps videoDur s).startSeconds = (snap.frameOffsetStart : ℚ) / fps ∧
    (mkExtractionJob snap fps videoDur s).durationSeconds = (snap.frameFinalDuration : ℚ) / fps ∧
    (mkExtractionJob snap fps videoDur s).startSeconds * fps = (snap.frameOffsetStart : ℚ) ∧
    (mkExtractionJob snap fps videoDur s).durationSeconds * fps = (snap.frameFinalDuration : ℚ) ∧
    (mkExtractionJob snap fps videoDur s).startSeconds =
      (mkExtractionJob snap fps videoDur' t).startSeconds ∧
    (mkExtractionJob snap fps videoDur s).durationSeconds =
      (mkExtractionJob snap fps videoDur' t).durationSeconds := by
  have hne : fps ≠ 0 := ne_of_gt h
  exact ⟨rfl, rfl, div_mul_cancel₀ _ hne, div_mul_cancel₀ _ hne, rfl, rfl⟩

/-- C1 witness: the spec's example window, offsets 48/0 and 960 final
frames at rate 24, gives startSeconds 2 and durationSeconds 40. -/
theorem extraction_window_from_snapshot_witness :
    (0 : ℚ) < 24 ∧
    (mkExtractionJob snapEx 24 999 streamB).startSeconds = 2 ∧
    (mkExtractionJob snapEx 24 999 streamB).durationSeconds = 40 := by
  refine ⟨by norm_num, ?_, ?_⟩
  · have h := (extraction_window_from_snapshot snapEx 24 (by norm_num) 999 999 streamB streamB).1
    rw [h]
    norm_num [snapEx]
  · have h := (extraction_window_from_snapshot snapEx 24 (by norm_num) 999 999 streamB streamB).2.1
    rw [h]
    norm_num [snapEx]

/-- C7: the stream scan returns the ordered stream list on a clean probe,
and otherwise exactly one typed failure: nonzero exit carries the exit
code and trimmed diagnostic text, empty output and unparsable output each
map to their own failure, and exceeding the 30-second bound maps to the
timeout failure; the failure value is returned directly, with no retry. -/
theorem scan_failure_taxonomy (parse : String → Except String (List StreamInfo)) :
    (∀ rc out err, rc ≠ 0 →
      get_audio_tracks parse (.completed rc out err) =
        .failure "ffprobe_failed"
          ("ffprobe failed (code " ++ toString rc ++ "): " ++ err.trim)) ∧
    (∀ out err, out.trim = "" →
      get_audio_tracks parse (.completed 0 out err) =
        .failure "ffprobe_empty_output"
          "ffprobe returned no output. File may not contain audio tracks.") ∧
    (∀ out err e, out.trim ≠ "" → parse out = .error e →
      get_audio_tracks parse (.completed 0 out err) =
        .failure "json_decode_error" ("Error parsing ffprobe output: " ++ e)) ∧
    (get_audio_tracks parse .timedOut =
      .failure "ffprobe_timeout" "ffprobe timed out after 30 seconds") ∧
    (∀ out err xs, out.trim ≠ "" → parse out = .ok xs →
      get_audio_tracks parse (.completed 0 out err) = .streams xs) := by
  refine ⟨?_, ?_, ?_, rfl, ?_⟩
  · intro rc out err h
    simp [get_audio_tracks, h]
  · intro out err h
    simp [get_audio_tracks, h]
  · intro out err e hout hparse
    simp [get_audio_tracks, hout, hparse]
  · intro out err xs hout hparse
    simp [get_audio_tracks, hout, hparse]

/-- C7 witness: a nonzero probe exit is reported as the tool failure with
the exit code and diagnostic text. -/
theorem scan_failure_taxonomy_witness :
    get_audio_tracks parseFail (.completed 1 "x" "e") =
      .failure "ffprobe_failed"
        ("ffprobe failed (code " ++ toString (1 : Int) ++ "): " ++ "e".trim) :=
  (scan_failure_taxonomy parseFail).1 1 "x" "e" (by decide)

/-- C9: the per-job extraction timeout is max(60, min(600, int(s * 2)))
seconds for a source of s megabytes, hence always within 60 and 600, and
it is monotonically nondecreasing in the file size. -/
theorem audio_timeout_bounded (s : ℚ) (hs : 0 ≤ s) :
    audio_timeout s = max 60 (min 600 (Int.floor (s * 2))) ∧
    60 ≤ audio_timeout s ∧
    audio_timeout s ≤ 600 ∧
    ∀ t : ℚ, s ≤ t → audio_timeout s ≤ audio_timeout t := by
  have h2 : ∀ u : ℚ, 0 ≤ u → pyInt (u * 2) = Int.floor (u * 2) := by
    intro u hu
    have hn : ¬ (u * 2 < 0) := not_lt.mpr (by positivity)
    unfold pyInt
    rw [if_neg hn]
  refine ⟨?_, le_max_left _ _, ?_, ?_⟩
  · unfold audio_timeout
    rw [h2 s hs]
  · unfold audio_timeout
    exact max_le (by norm_num) (min_le_left _ _)
  · intro t hst
    unfold audio_timeout
    rw [h2 s hs, h2 t (le_trans hs hst)]
    have hfl : Int.floor (s * 2) ≤ Int.floor (t * 2) :=
      Int.floor_le_floor (by linarith)
    exact max_le_max (le_refl _) (min_le_min (le_refl _) hfl)

/-- C9 witness: a 100 MB source gets a timeout between 60 and 600
seconds. -/
theorem audio_timeout_bounded_witness :
    (0 : ℚ) ≤ 100 ∧ 60 ≤ audio_timeout 100 ∧ audio_timeout 100 ≤ 600 :=
  ⟨by norm_num, (audio_timeout_bounded 100 (by norm_num)).2.1,
    (audio_timeout_bounded 100 (by norm_num)).2.2.1⟩

/-- C10: the monitored transcode run always returns a pair, the second
component is none exactly when the process exits 0 within the timeout, and
otherwise the first component is none while the second carries the error:
the timeout message, the captured stderr on nonzero exit, or the exception
text. -/
theorem run_ffmpeg_result_shape (b : ProcBehavior) :
    ((run_ffmpeg_with_progress b).2 = none ↔ ∃ out err, b = .exits 0 out err) ∧
    ((run_ffmpeg_with_progress b).2 ≠ none → (run_ffmpeg_with_progress b).1 = none) ∧
    (b = .timesOut → run_ffmpeg_with_progress b = (none, some "Process timed out")) ∧
    (∀ msg, b = .raised msg → run_ffmpeg_with_progress b = (none, some msg)) ∧
    (∀ rc out err, b = .exits rc out err → rc ≠ 0 →
      run_ffmpeg_with_progress b = (none, some err)) ∧
    (∀ out err, b = .exits 0 out err → run_ffmpeg_with_progress b = (some out, none)) := by
  cases b with
  | timesOut => simp [run_ffmpeg_with_progress]
  | exits rc out err =>
    by_cases h : rc = 0
    · subst h
      simp [run_ffmpeg_with_progress]
    · simp [run_ffmpeg_with_progress, h]
  | raised msg => simp [run_ffmpeg_with_progress]

/-- C10 witness: a nonzero exit yields no stdout and the captured stderr
as the error. -/
theorem run_ffmpeg_result_shape_witness :
    run_ffmpeg_with_progress (.exits 2 "o" "e") = (none, some "e") :=
  (run_ffmpeg_result_shape (.exits 2 "o" "e")).2.2.2.2.1 2 "o" "e" rfl (by decide)

/-- C8: the workspace starting channel is one past the maximum occupied
channel over every strip on the timeline (and 1 for an empty timeline),
hence strictly greater than every occupied channel. -/
theorem workspace_channel_above_occupied (strips : List Strip) :
    (strips = [] → extraction_start_channel (strips.map Strip.channel) = 1) ∧
    (strips ≠ [] → ∃ m, m ∈ strips.map Strip.channel ∧
      (∀ x ∈ strips.map Strip.channel, x ≤ m) ∧
      extraction_start_channel (strips.map Strip.channel) = m + 1) ∧
    (∀ s ∈ strips, s.channel < extraction_start_channel (strips.map Strip.channel)) := by
  cases strips with
  | nil =>
    refine ⟨fun _ => rfl, fun h => absurd rfl h, ?_⟩
    intro s hs
    simp at hs
  | cons a t =>
    have hmap : (a :: t).map Strip.channel = a.channel :: t.map Strip.channel := rfl
    have hext : extraction_start_channel ((a :: t).map Strip.channel) =
        (t.map Strip.channel).foldl max a.channel + 1 := rfl
    refine ⟨fun h => absurd h (List.cons_ne_nil a t), fun _ => ?_, ?_⟩
    · refine ⟨(t.map Strip.channel).foldl max a.channel, ?_, ?_, hext⟩
      · rw [hmap]
        exact foldl_max_mem (t.map Strip.channel) a.channel
      · intro x hx
        rw [hmap] at hx
        rcases List.mem_cons.mp hx with h1 | h1
        · rw [h1]
          exact (foldl_max_bounds _ _).1
        · exact (foldl_max_bounds _ _).2 x h1
    · intro s hs
      rw [hext]
      have hch : s.channel ≤ (t.map Strip.channel).foldl max a.channel := by
        have hmem := List.mem_map_of_mem Strip.channel hs
        rw [hmap] at hmem
        rcases List.mem_cons.mp hmem with h1 | h1
        · rw [h1]
          exact (foldl_max_bounds _ _).1
        · exact (foldl_max_bounds _ _).2 _ h1
      omega

/-- C8 witness: on a two-strip timeline occupying channels 1 and 2, the
workspace starting channel exceeds the occupied channel 2. -/
theorem workspace_channel_above_occupied_witness :
    otherOv ∈ [selOv, otherOv] ∧
    otherOv.channel < extraction_start_channel ([selOv, otherOv].map Strip.channel) :=
  ⟨by simp, (workspace_channel_above_occupied [selOv, otherOv]).2.2 otherOv (by simp)⟩

/-- C5: when the scan reports zero or one audio stream, the run performs
no timeline mutation at all — the selected strip is untouched, nothing is
created or grouped — and it finishes with success and zero jobs run. -/
theorem few_streams_no_mutation (sel : Strip) (others : List Strip) (inp : ExecInputs)
    (xs : List StreamInfo) (hscan : inp.scan = .streams xs) (hlen : xs.length ≤ 1) :
    execute sel others inp =
      { status := .finished, selected := sel, created := [], grouped := [], meta := none } := by
  unfold execute
  rw [hscan]
  simp [hlen, noMutation]

/-- C5 witness: a one-stream scan leaves the timeline untouched and
finishes. -/
theorem few_streams_no_mutation_witness :
    execute selF [] inpOneStream =
      { status := .finished, selected := selF, created := [], grouped := [], meta := none } :=
  few_streams_no_mutation selF [] inpOneStream [streamA] rfl (by decide)

/-- C4 counterexample: in a concrete run whose only additional extraction
job fails, the operator still returns the success status — it does not end
in a failed or cancelled state, contradicting the claim that zero verified
outputs report failure. -/
theorem all_jobs_failed_counterexample :
    (∀ o ∈ inpAllFail.jobOutcomes, o.isOk = false) ∧
    (execute selF [] inpAllFail).status = OpStatus.finished ∧
    ¬ (execute selF [] inpAllFail).status = OpStatus.cancelled := by
  refine ⟨by decide, by decide, by decide⟩

/-- C4 amended: if every additional extraction job fails (zero verified
outputs), the run performs no timeline mutation — the original clip's
placement attributes are bit-identical to the pre-run snapshot — but it
reports success (a warning plus the finished status), not a failed
terminal state. -/
theorem all_jobs_failed_no_mutation (sel : Strip) (others : List Strip) (inp : ExecInputs)
    (xs : List StreamInfo) (hscan : inp.scan = .streams xs)
    (hprobe : inp.durationProbeOk = true)
    (hall : ∀ o ∈ inp.jobOutcomes, o.isOk = false) :
    execute sel others inp =
      { status := .finished, selected := sel, created := [], grouped := [], meta := none } := by
  unfold execute
  rw [hscan]
  by_cases hlen : xs.length ≤ 1
  · simp [hlen, noMutation]
  · have hempty : createdStrips sel others xs inp.jobOutcomes = [] := by
      unfold createdStrips
      exact buildCreated_all_fail _ _ _ hall
    simp [hlen, hprobe, hempty, noMutation]

/-- C4 amended witness: the concrete all-failed run finishes with the
original strip bit-identical and nothing created. -/
theorem all_jobs_failed_no_mutation_witness :
    execute selF [] inpAllFail =
      { status := .finished, selected := selF, created := [], grouped := [], meta := none } :=
  all_jobs_failed_no_mutation selF [] inpAllFail [streamA, streamB] rfl rfl (by decide)

/-- C2: every metastrip a run produces has the snapshot's frame start and
channel exactly, the snapshot's start offset, a final duration within one
frame of the snapshot's, and an end offset that is either the snapshot's
(when the grouped duration already agreed within one frame) or the
snapshot's plus exactly the signed difference between the grouped duration
and the snapshot duration — a one-shot correction. -/
theorem composite_restoration (sel : Strip) (others : List Strip) (inp : ExecInputs)
    (m : Strip) (hm : (execute sel others inp).meta = some m) :
    m.frameStart = sel.frameStart ∧
    m.channel = sel.channel ∧
    m.frameOffsetStart = sel.frameOffsetStart ∧
    (m.frameFinalDuration - sel.frameFinalDuration).natAbs ≤ 1 ∧
    ∃ metaFrames, inp.metaMake = some metaFrames ∧
      (((metaFrames - sel.frameOffsetStart - sel.frameOffsetEnd - sel.frameFinalDuration).natAbs ≤ 1 ∧
          m.frameOffsetEnd = sel.frameOffsetEnd) ∨
        (1 < (metaFrames - sel.frameOffsetStart - sel.frameOffsetEnd - sel.frameFinalDuration).natAbs ∧
          m.frameOffsetEnd = sel.frameOffsetEnd +
            (metaFrames - sel.frameOffsetStart - sel.frameOffsetEnd - sel.frameFinalDuration))) := by
  obtain ⟨L, hL, hmeq⟩ := execute_meta_eq sel others inp m hm
  subst hmeq
  have hs := restoreMeta_spec (mkSnapshot sel) L
  simp only [mkSnapshot] at hs
  exact ⟨hs.2.1, hs.1, hs.2.2.1, hs.2.2.2.1, L, hL, hs.2.2.2.2⟩

/-- C2 witness: the concrete successful run yields a metastrip whose
position and channel are the snapshot's and whose final duration agrees
within one frame. -/
theorem composite_restoration_witness :
    (execute selW [] inpW).meta = some metaW ∧
    metaW.frameStart = selW.frameStart ∧
    metaW.channel = selW.channel ∧
    (metaW.frameFinalDuration - selW.frameFinalDuration).natAbs ≤ 1 := by
  have hmeta : (execute selW [] inpW).meta = some metaW := by decide
  have h := composite_restoration selW [] inpW metaW hmeta
  exact ⟨hmeta, h.1, h.2.1, h.2.2.2.1⟩

/-- C6: per-job failures are job-local — every verified job still yields a
strip regardless of failures before or after it, and whenever at least one
job is verified the run finishes with success and the grouped composite is
the original clip plus exactly one strip per verified job. -/
theorem partial_success_job_local (sel : Strip) (others : List Strip) (inp : ExecInputs)
    (xs : List StreamInfo) (L : Int)
    (hscan : inp.scan = .streams xs) (hlen : 2 ≤ xs.length)
    (hprobe : inp.durationProbeOk = true) (hmeta : inp.metaMake = some L)
    (hok : 0 < okCount (xs.drop 1) inp.jobOutcomes) :
    (execute sel others inp).status = OpStatus.finished ∧
    (execute sel others inp).created.length = okCount (xs.drop 1) inp.jobOutcomes ∧
    (execute sel others inp).grouped =
      (execute sel others inp).selected :: (execute sel others inp).created ∧
    ∃ m, (execute sel others inp).meta = some m := by
  have hne : ¬ xs.length ≤ 1 := by omega
  have hlen2 : (createdStrips sel others xs inp.jobOutcomes).length =
      okCount (xs.drop 1) inp.jobOutcomes := by
    unfold createdStrips
    exact buildCreated_length _ _ _
  have hnonempty : createdStrips sel others xs inp.jobOutcomes ≠ [] := by
    intro hnil
    have hzero : (createdStrips sel others xs inp.jobOutcomes).length = 0 := by
      rw [hnil]
      rfl
    rw [hlen2] at hzero
    omega
  rw [execute_success_record sel others inp xs L hscan hne hprobe hnonempty hmeta]
  exact ⟨rfl, hlen2, rfl, restoreMeta (mkSnapshot sel) L, rfl⟩

/-- C6 witness: the spec's scenario — idx1 verified, idx2 failing — ends
with success, one created strip, and a two-clip grouping. -/
theorem partial_success_job_local_witness :
    (execute selW [] inpPartial).status = OpStatus.finished ∧
    (execute selW [] inpPartial).created.length =
      okCount ([streamA, streamB, streamC].drop 1) inpPartial.jobOutcomes ∧
    (execute selW [] inpPartial).grouped =
      (execute selW [] inpPartial).selected :: (execute selW [] inpPartial).created := by
  have h := partial_success_job_local selW [] inpPartial [streamA, streamB, streamC] 95
    rfl (by decide) rfl rfl (by decide)
  exact ⟨h.1, h.2.1, h.2.2.1⟩

/-- C3 counterexample: on a timeline where a strip occupies channel 2
across frames 900-1200, a run with one verified job moves the original
strip into the temporary workspace at frame 1000 on channel 2 — a
position overlapping that occupied range, contradicting the claimed
non-overlap for every starting state. -/
theorem workspace_overlap_counterexample :
    (execute selOv [otherOv] inpOv).selected.frameStart = temp_extraction_start ∧
    (execute selOv [otherOv] inpOv).selected.overlaps otherOv := by
  exact ⟨by decide, by decide⟩

/-- C3 amended: the strips newly created in the temporary workspace are
placed on channels strictly above every channel occupied when the region
was computed, so they never overlap any existing strip; the original
strip, however, is moved to frame 1000 on the channel one below the
workspace start — the maximum occupied channel — which can overlap an
existing strip, so non-overlap holds only for the created strips. -/
theorem created_strips_never_overlap (sel : Strip) (others : List Strip) (inp : ExecInputs)
    (c : Strip) (hc : c ∈ (execute sel others inp).created)
    (t : Strip) (ht : t ∈ sel :: others) :
    ¬ c.overlaps t := by
  intro hov
  have hch : workspaceChannel sel others ≤ c.channel :=
    execute_created_channel sel others inp c hc
  have hlt : t.channel < workspaceChannel sel others := by
    unfold workspaceChannel
    exact channel_lt_extraction_start (sel :: others) t ht
  have hceq : c.channel = t.channel := hov.1
  omega

/-- C3 amended witness: in the concrete overlapping run, the created
audio strip does not overlap either pre-existing strip. -/
theorem created_strips_never_overlap_witness :
    ∃ c, c ∈ (execute selOv [otherOv] inpOv).created ∧
      ¬ c.overlaps selOv ∧ ¬ c.overlaps otherOv := by
  refine ⟨mkAudioStrip streamB 3 150, by decide, ?_, ?_⟩
  · exact created_strips_never_overlap selOv [otherOv] inpOv
      (mkAudioStrip streamB 3 150) (by decide) selOv (by simp)
  · exact created_strips_never_overlap selOv [otherOv] inpOv
      (mkAudioStrip streamB 3 150) (by decide) otherOv (by simp)

end MultiAudio
